import Mathlib

/-!
Shallow embedding of the flutter_soloud native binding layer
(src/src/player.cpp, src/src/capture.cpp, src/src/capture.h).

The layer is bookkeeping glue around an external audio engine (SoLoud) and
an external device layer (miniaudio).  External calls are modelled by
explicit parameters carrying the external result (decode results, device
results, engine-issued handles) and by an append-only log of the calls
made into the external layer, so that "the engine was (not) called" is a
statement about the log.  C++ `float` values are modelled as `Rat`;
captured audio samples are modelled generically.  The registry
`std::vector<std::unique_ptr<ActiveSound>>` is modelled as
`List (Option ActiveSound)`: a default-constructed `unique_ptr` slot (the
empty placeholder appended on a failed load) is `none`.
-/

/-- Sound kinds stored in `ActiveSound::soundType` (TYPE_WAV / TYPE_SYNTH). -/
inductive SoundType where
  | wav
  | synth
  deriving DecidableEq

/-- One registry entry, from `ActiveSound` in player.h: the file name, the
content hash, the kind, the list of live playback handles, and (for
synthesized sounds) the `Basicwave` generator parameters. -/
structure ActiveSound where
  completeFileName : String
  soundHash : Nat
  soundType : SoundType
  handles : List Nat
  scale : Rat
  detune : Rat
  waveform : Int
  freq : Rat
  superwave : Bool

/-- Calls made by the Player into the external SoLoud engine. -/
inductive EngineOp where
  | playOp (volume pan : Rat) (paused : Bool) (handle : Nat)
  | stopOp (handle : Nat)
  | stopAllOp
  | setRelativePlaySpeedOp (handle : Nat) (speed : Rat)

/-- Player state: `mInited` flag and the `sounds` registry from player.h,
plus the log of calls into the external engine. -/
structure PlayerState where
  mInited : Bool
  sounds : List (Option ActiveSound)
  engineOps : List EngineOp

/-- Error codes of the binding layer, named as in `Player::getErrorString`
(player.cpp lines 58-86). -/
inductive PlayerErrors where
  | noError
  | invalidParameter
  | fileNotFound
  | fileLoadFailed
  | fileAlreadyLoaded
  | dllNotFound
  | outOfMemory
  | notImplemented
  | backendNotInited
  | filterNotFound
  | unknownError

/-- Modelled from the spec: the C cast `(PlayerErrors)result` that turns a
SoLoud engine result code into a PlayerErrors value.  The numeric values of
the PlayerErrors enum live in enums.h, which is not under src/; the spec
(section 6) says the local error codes "mirror the wrapped engine's own
error taxonomy almost one-to-one", so the shared codes are mapped
name-to-name following the SoLoud result numbering
(SO_NO_ERROR=0 .. UNKNOWN_ERROR=7). -/
def resultToPlayerError (r : Nat) : PlayerErrors :=
  match r with
  | 0 => PlayerErrors.noError
  | 1 => PlayerErrors.invalidParameter
  | 2 => PlayerErrors.fileNotFound
  | 3 => PlayerErrors.fileLoadFailed
  | 4 => PlayerErrors.dllNotFound
  | 5 => PlayerErrors.outOfMemory
  | 6 => PlayerErrors.notImplemented
  | _ => PlayerErrors.unknownError

/-- Whether a registry slot holds a sound with the given hash.  This is the
predicate of the `std::find_if` lambdas in player.cpp (`f->soundHash ==
newHash`); an empty placeholder slot (null pointer, `none`) matches
nothing. -/
def slotHasHash (o : Option ActiveSound) (h : Nat) : Bool :=
  match o with
  | some s => s.soundHash == h
  | none => false

/-- Registry membership test for a hash (the `s != sounds.end()` check). -/
def containsHash (l : List (Option ActiveSound)) (h : Nat) : Bool :=
  l.any (fun o => slotHasHash o h)

/-- Number of registry slots holding a sound with the given hash. -/
def countHash (l : List (Option ActiveSound)) (h : Nat) : Nat :=
  l.countP (fun o => slotHasHash o h)

/-- Index of the first registry slot with the given hash, the result of
`std::find_if(sounds.begin(), sounds.end(), ...)` in player.cpp. -/
def findIndexByHash (l : List (Option ActiveSound)) (h : Nat) : Option Nat :=
  match l with
  | [] => none
  | o :: rest =>
      if slotHasHash o h then some 0
      else (findIndexByHash rest h).map (· + 1)

/-- Index of the first registry slot whose handle list contains the given
playback handle, the nested linear scan of `Player::findByHandle`
(player.cpp lines 421-442).  An empty placeholder slot contains no
handles. -/
def slotHasHandle (o : Option ActiveSound) (h : Nat) : Bool :=
  match o with
  | some s => s.handles.contains h
  | none => false

/-- The outer scan of `Player::findByHandle`: index of the first sound
owning the handle, `none` when no sound tracks it (the nullptr return). -/
def findByHandle (l : List (Option ActiveSound)) (h : Nat) : Option Nat :=
  match l with
  | [] => none
  | o :: rest =>
      if slotHasHandle o h then some 0
      else (findByHandle rest h).map (· + 1)

/-- A freshly loaded WAV registry entry, as built by `Player::loadFile` and
`Player::loadFromMemory` (file name, hash, TYPE_WAV, no handles yet; the
generator parameters are unused for WAV sounds and set to defaults). -/
def newWavSound (path : String) (h : Nat) : ActiveSound :=
  { completeFileName := path
    soundHash := h
    soundType := SoundType.wav
    handles := []
    scale := 0
    detune := 0
    waveform := 0
    freq := 0
    superwave := false }

/-- Model of `Player::getSoundsCount` (player.cpp lines 53-56). -/
def getSoundsCount (st : PlayerState) : Nat :=
  st.sounds.length

/-- Model of `Player::loadFile` (player.cpp lines 88-119).  `hashFn` stands for
`std::hash<std::string>` (implementation-defined, so kept abstract); the
source truncates it with a cast to `unsigned int`, hence `% 2^32`.
`decodeResult` is the SoLoud result of `Wav::load` (0 = SO_NO_ERROR), an
external input.  Returns the error code, the new state, and the value left
in the `hash` out-parameter.  On a decode failure the half-built entry
stays in the registry and `sounds.emplace_back()` appends a null
placeholder (`none`). -/
def loadFile (hashFn : String → Nat) (st : PlayerState) (path : String)
    (decodeResult : Nat) : PlayerErrors × PlayerState × Nat :=
  if st.mInited = false then (PlayerErrors.backendNotInited, st, 0)
  else
    let newHash := hashFn path % 4294967296
    if containsHash st.sounds newHash then
      (PlayerErrors.fileAlreadyLoaded, st, newHash)
    else
      let st1 := { st with sounds := st.sounds ++ [some (newWavSound path newHash)] }
      if decodeResult = 0 then (PlayerErrors.noError, st1, newHash)
      else (resultToPlayerError decodeResult,
            { st1 with sounds := st1.sounds ++ [none] }, newHash)

/-- Model of `Player::loadFromMemory` (player.cpp lines 121-151).  Identical to
`loadFile` except the key is the hash of the fixed string
"memory-mapped-sample", independent of the buffer contents; `buffer` and
`length` are only handed to the external `Wav::loadRawWav`, whose result
is the external input `decodeResult`. -/
def loadFromMemory (hashFn : String → Nat) (st : PlayerState)
    (buffer : List Rat) (length : Nat) (decodeResult : Nat) :
    PlayerErrors × PlayerState × Nat :=
  if st.mInited = false then (PlayerErrors.backendNotInited, st, 0)
  else
    let newHash := hashFn "memory-mapped-sample" % 4294967296
    if containsHash st.sounds newHash then
      (PlayerErrors.fileAlreadyLoaded, st, newHash)
    else
      let st1 := { st with sounds :=
        st.sounds ++ [some (newWavSound "memory-mapped-sample" newHash)] }
      if decodeResult = 0 then (PlayerErrors.noError, st1, newHash)
      else (resultToPlayerError decodeResult,
            { st1 with sounds := st1.sounds ++ [none] }, newHash)

/-- Model of `Player::play` (player.cpp lines 270-287).  `newHandle` is the handle
issued by the external `soloud.play` call; when the hash is not found the
function returns 0 before any engine call. -/
def play (st : PlayerState) (soundHash : Nat) (volume pan : Rat)
    (paused : Bool) (newHandle : Nat) : Nat × PlayerState :=
  match findIndexByHash st.sounds soundHash with
  | none => (0, st)
  | some i =>
      match st.sounds[i]? with
      | some (some s) =>
          (newHandle,
           { st with
             engineOps := st.engineOps ++ [EngineOp.playOp volume pan paused newHandle]
             sounds := st.sounds.set i (some { s with handles := s.handles ++ [newHandle] }) })
      | _ => (newHandle, st)

/-- The effect of `sound->handle.erase(std::remove_if(...))` in
`Player::stop` on the handle vector: `std::remove_if` compacts the
elements different from `handle` to the front and (for trivially copyable
elements) leaves the tail positions holding their original values, and the
single-iterator `erase` then removes the one element at the compaction
point.  The result is the kept elements followed by the original elements
past position `kept.length + 1`. -/
def eraseHandleCpp (l : List Nat) (h : Nat) : List Nat :=
  let kept := l.filter (fun x => x ≠ h)
  kept ++ l.drop (kept.length + 1)

/-- Model of `Player::stop` (player.cpp lines 289-300): find the owning sound by
handle; when none is found return immediately, otherwise call
`soloud.stop(handle)` and erase the handle from the owner's list. -/
def stop (st : PlayerState) (h : Nat) : PlayerState :=
  match findByHandle st.sounds h with
  | none => st
  | some i =>
      match st.sounds[i]? with
      | some (some s) =>
          { st with
            engineOps := st.engineOps ++ [EngineOp.stopOp h]
            sounds := st.sounds.set i (some { s with handles := eraseHandleCpp s.handles h }) }
      | _ => st

/-- Model of `Player::disposeAllSound` (player.cpp lines 318-322): `soloud.stopAll()`
then `sounds.clear()`. -/
def disposeAllSound (st : PlayerState) : PlayerState :=
  { st with
    engineOps := st.engineOps ++ [EngineOp.stopAllOp]
    sounds := [] }

/-- The minimum relative play speed, the literal `0.05` of player.cpp
line 261. -/
def speedMinimum : Rat := mkRat 1 20

/-- Model of `Player::setRelativePlaySpeed` (player.cpp lines 259-263): clamp the
speed from below at 0.05, then always forward it to
`soloud.setRelativePlaySpeed`. -/
def setRelativePlaySpeed (st : PlayerState) (h : Nat) (speed : Rat) : PlayerState :=
  let sp := if speed < speedMinimum then speedMinimum else speed
  { st with engineOps := st.engineOps ++ [EngineOp.setRelativePlaySpeedOp h sp] }

/-- Model of `Player::setWaveformScale` (player.cpp lines 181-191): find by hash;
return unchanged when absent or not TYPE_SYNTH, otherwise set the scale of
the Basicwave generator in place. -/
def setWaveformScale (st : PlayerState) (soundHash : Nat) (newScale : Rat) : PlayerState :=
  match findIndexByHash st.sounds soundHash with
  | none => st
  | some i =>
      match st.sounds[i]? with
      | some (some s) =>
          if s.soundType ≠ SoundType.synth then st
          else { st with sounds := st.sounds.set i (some { s with scale := newScale }) }
      | _ => st

/-- Model of `Player::setWaveformDetune` (player.cpp lines 193-203). -/
def setWaveformDetune (st : PlayerState) (soundHash : Nat) (newDetune : Rat) : PlayerState :=
  match findIndexByHash st.sounds soundHash with
  | none => st
  | some i =>
      match st.sounds[i]? with
      | some (some s) =>
          if s.soundType ≠ SoundType.synth then st
          else { st with sounds := st.sounds.set i (some { s with detune := newDetune }) }
      | _ => st

/-- Model of `Player::setWaveform` (player.cpp lines 205-216). -/
def setWaveform (st : PlayerState) (soundHash : Nat) (newWaveform : Int) : PlayerState :=
  match findIndexByHash st.sounds soundHash with
  | none => st
  | some i =>
      match st.sounds[i]? with
      | some (some s) =>
          if s.soundType ≠ SoundType.synth then st
          else { st with sounds := st.sounds.set i (some { s with waveform := newWaveform }) }
      | _ => st

/-- Model of `Player::setWaveformFreq` (player.cpp lines 218-228). -/
def setWaveformFreq (st : PlayerState) (soundHash : Nat) (newFreq : Rat) : PlayerState :=
  match findIndexByHash st.sounds soundHash with
  | none => st
  | some i =>
      match st.sounds[i]? with
      | some (some s) =>
          if s.soundType ≠ SoundType.synth then st
          else { st with sounds := st.sounds.set i (some { s with freq := newFreq }) }
      | _ => st

/-- Model of `Player::setWaveformSuperwave` (player.cpp lines 230-240). -/
def setWaveformSuperwave (st : PlayerState) (soundHash : Nat) (sw : Bool) : PlayerState :=
  match findIndexByHash st.sounds soundHash with
  | none => st
  | some i =>
      match st.sounds[i]? with
      | some (some s) =>
          if s.soundType ≠ SoundType.synth then st
          else { st with sounds := st.sounds.set i (some { s with superwave := sw }) }
      | _ => st

/-- Error codes of the capture component, named as in capture.cpp. -/
inductive CaptureErrors where
  | capture_noError
  | capture_init_failed
  | capture_not_inited
  | failed_to_start_device

/-- Calls made by the Capture component into the external miniaudio device
layer. -/
inductive DeviceOp where
  | deviceInitOp
  | deviceStartOp
  | deviceUninitOp

/-- Capture state: the `mInited` flag of the Capture class (capture.h) and
the module-level globals of capture.cpp (`currentFrame`, `capturedBuffer`,
`bigBuffer`), plus the log of calls into the external device layer.
Samples are an arbitrary type since the copies are content-agnostic. -/
structure CaptureState (A : Type) where
  mInited : Bool
  currentFrame : Nat
  capturedBuffer : List A
  bigBuffer : List A
  deviceOps : List DeviceOp

/-- CAPTURE_BUFFER_SIZE, the fixed frame size of capture.cpp line 7. -/
def captureBufferSize : Nat := 256

/-- Model of `data_callback` (capture.cpp lines 14-26): copy exactly one frame of
`captureBufferSize` samples from the delivered input into the latest-frame
buffer `capturedBuffer` and into the slot of the big buffer starting at
sample offset `captureBufferSize * currentFrame`, then advance the frame
counter.  Both `memcpy` calls copy `captureBufferSize` floats regardless
of `frameCount`. -/
def data_callback (st : CaptureState A) (captured : List A) : CaptureState A :=
  { st with
    capturedBuffer := captured.take captureBufferSize
    bigBuffer :=
      st.bigBuffer.take (captureBufferSize * st.currentFrame)
        ++ captured.take captureBufferSize
        ++ st.bigBuffer.drop (captureBufferSize * st.currentFrame + captureBufferSize)
    currentFrame := st.currentFrame + 1 }

namespace Capture

/-- Model of `Capture::init` (capture.cpp lines 73-96): fail without touching the
device when already initialized; otherwise configure and init the device
(`deviceInitResult` is the external `ma_device_init` outcome), and on
success point `bigBuffer` at the caller-supplied buffer and set
`mInited`. -/
def init (st : CaptureState A) (bufferFromDart : List A)
    (deviceInitResult : Bool) : CaptureErrors × CaptureState A :=
  if st.mInited then (CaptureErrors.capture_init_failed, st)
  else
    let st1 := { st with deviceOps := st.deviceOps ++ [DeviceOp.deviceInitOp] }
    if deviceInitResult = false then (CaptureErrors.capture_init_failed, st1)
    else (CaptureErrors.capture_noError,
          { st1 with bigBuffer := bufferFromDart, mInited := true })

/-- Model of `Capture::startCapture` (capture.cpp lines 120-133): not-initialized
check before any device call; `startResult` is the external
`ma_device_start` outcome, and on failure the device is uninitialized. -/
def startCapture (st : CaptureState A) (startResult : Bool) :
    CaptureErrors × CaptureState A :=
  if st.mInited = false then (CaptureErrors.capture_not_inited, st)
  else
    let st1 := { st with deviceOps := st.deviceOps ++ [DeviceOp.deviceStartOp] }
    if startResult = false then
      (CaptureErrors.failed_to_start_device,
       { st1 with deviceOps := st1.deviceOps ++ [DeviceOp.deviceUninitOp] })
    else (CaptureErrors.capture_noError, st1)

/-- Model of `Capture::stopCapture` (capture.cpp lines 135-145): not-initialized
check before any device call; otherwise uninit the device and clear
`mInited`. -/
def stopCapture (st : CaptureState A) : CaptureErrors × CaptureState A :=
  if st.mInited = false then (CaptureErrors.capture_not_inited, st)
  else (CaptureErrors.capture_noError,
        { st with
          deviceOps := st.deviceOps ++ [DeviceOp.deviceUninitOp]
          mInited := false })

/-- Model of `Capture::dispose` (capture.cpp lines 103-107). -/
def dispose (st : CaptureState A) : CaptureState A :=
  { st with
    mInited := false
    deviceOps := st.deviceOps ++ [DeviceOp.deviceUninitOp] }

/-- Model of `Capture::isInited` (capture.cpp lines 109-112). -/
def isInited (st : CaptureState A) : Bool :=
  st.mInited

end Capture

/-! Helper lemmas about the registry scans. -/

theorem findIndexByHash_eq_none (l : List (Option ActiveSound)) (h : Nat)
    (hc : containsHash l h = false) : findIndexByHash l h = none := by
  induction l with
  | nil => rfl
  | cons o rest ih =>
      unfold containsHash at hc
      rw [List.any_cons] at hc
      rcases Bool.or_eq_false_iff.mp hc with ⟨h1, h2⟩
      unfold findIndexByHash
      rw [h1]
      simp [ih h2]

theorem findByHandle_eq_none (l : List (Option ActiveSound)) (h : Nat)
    (hall : ∀ o ∈ l, slotHasHandle o h = false) : findByHandle l h = none := by
  induction l with
  | nil => rfl
  | cons o rest ih =>
      unfold findByHandle
      rw [hall o (List.mem_cons_self o rest)]
      simp [ih (fun o ho => hall o (List.mem_cons_of_mem _ ho))]

/-- C6: `disposeAllSound` stops all engine-side voices (a `stopAll` call is
issued to the engine) and clears the registry; `getSoundsCount` right after
it returns 0. -/
theorem disposeAllSound_clears (st : PlayerState) :
    getSoundsCount (disposeAllSound st) = 0
    ∧ (disposeAllSound st).sounds = []
    ∧ (disposeAllSound st).engineOps = st.engineOps ++ [EngineOp.stopAllOp] :=
  ⟨rfl, rfl, rfl⟩

/-- C10: `setRelativePlaySpeed` clamps the requested speed at the minimum
0.05 before forwarding it to the engine: a speed below 0.05 is forwarded as
exactly 0.05 (so never passed through unchanged and never rejected — the
engine call is still made), while a speed at or above 0.05 is forwarded
unchanged. -/
theorem setRelativePlaySpeed_clamps (st : PlayerState) (h : Nat) (speed : Rat) :
    (speed < speedMinimum →
       setRelativePlaySpeed st h speed =
         { st with engineOps :=
             st.engineOps ++ [EngineOp.setRelativePlaySpeedOp h speedMinimum] }
       ∧ speedMinimum ≠ speed)
    ∧ (speedMinimum ≤ speed →
       setRelativePlaySpeed st h speed =
         { st with engineOps :=
             st.engineOps ++ [EngineOp.setRelativePlaySpeedOp h speed] }) := by
  constructor
  · intro hlt
    refine ⟨?_, fun he => absurd (he ▸ hlt) (lt_irrefl _)⟩
    simp [setRelativePlaySpeed, if_pos hlt]
  · intro hle
    simp [setRelativePlaySpeed, if_neg (not_lt.mpr hle)]

theorem setRelativePlaySpeed_clamps_witness :
    (setRelativePlaySpeed ⟨true, [], []⟩ 1 0 =
       { mInited := true, sounds := [],
         engineOps := [] ++ [EngineOp.setRelativePlaySpeedOp 1 speedMinimum] })
    ∧ (setRelativePlaySpeed ⟨true, [], []⟩ 1 1 =
       { mInited := true, sounds := [],
         engineOps := [] ++ [EngineOp.setRelativePlaySpeedOp 1 1] }) :=
  ⟨((setRelativePlaySpeed_clamps ⟨true, [], []⟩ 1 0).1 (by decide)).1,
   (setRelativePlaySpeed_clamps ⟨true, [], []⟩ 1 1).2 (by decide)⟩

/-- C2: `play` on a hash absent from the registry returns the sentinel
invalid handle 0 and leaves the whole player state (registry and engine
call log) unchanged: no live-handle entry is created for any sound and the
engine is never called. -/
theorem play_unknown_hash (st : PlayerState) (h : Nat) (volume pan : Rat)
    (paused : Bool) (newHandle : Nat)
    (hc : containsHash st.sounds h = false) :
    play st h volume pan paused newHandle = (0, st) := by
  unfold play
  rw [findIndexByHash_eq_none st.sounds h hc]

theorem play_unknown_hash_witness :
    play ⟨true, [], []⟩ 5 0 0 false 7 = (0, (⟨true, [], []⟩ : PlayerState)) :=
  play_unknown_hash ⟨true, [], []⟩ 5 0 0 false 7 (by decide)

theorem countHash_append (l1 l2 : List (Option ActiveSound)) (h : Nat) :
    countHash (l1 ++ l2) h = countHash l1 h + countHash l2 h := by
  simp [countHash, List.countP_append]

theorem countHash_eq_zero (l : List (Option ActiveSound)) (h : Nat)
    (hc : containsHash l h = false) : countHash l h = 0 := by
  induction l with
  | nil => rfl
  | cons o rest ih =>
      unfold containsHash at hc
      rw [List.any_cons] at hc
      rcases Bool.or_eq_false_iff.mp hc with ⟨h1, h2⟩
      have hr : countHash rest h = 0 := ih h2
      unfold countHash at hr ⊢
      rw [List.countP_cons, hr, h1]
      rfl

/-- C1: when a sound with the hash of the given path is already in the
registry, a further `loadFile` of that path returns `fileAlreadyLoaded`,
hands back that hash, and leaves the state untouched (no entry added, no
engine call); in particular when exactly one entry with that hash was
present, exactly one is present afterwards. -/
theorem loadFile_already_loaded (hashFn : String → Nat) (st : PlayerState)
    (path : String) (decodeResult : Nat)
    (hinit : st.mInited = true)
    (hpres : containsHash st.sounds (hashFn path % 4294967296) = true) :
    loadFile hashFn st path decodeResult =
      (PlayerErrors.fileAlreadyLoaded, st, hashFn path % 4294967296)
    ∧ (countHash st.sounds (hashFn path % 4294967296) = 1 →
       countHash (loadFile hashFn st path decodeResult).2.1.sounds
         (hashFn path % 4294967296) = 1) := by
  have hmain : loadFile hashFn st path decodeResult =
      (PlayerErrors.fileAlreadyLoaded, st, hashFn path % 4294967296) := by
    simp [loadFile, hinit, hpres]
  exact ⟨hmain, fun h1 => by rw [hmain]; exact h1⟩

theorem loadFile_already_loaded_witness :
    loadFile (fun _ => 5) ⟨true, [some (newWavSound "a" 5)], []⟩ "a" 0 =
      (PlayerErrors.fileAlreadyLoaded,
       (⟨true, [some (newWavSound "a" 5)], []⟩ : PlayerState), 5)
    ∧ countHash (loadFile (fun _ => 5)
        ⟨true, [some (newWavSound "a" 5)], []⟩ "a" 0).2.1.sounds 5 = 1 := by
  have h := loadFile_already_loaded (fun _ => 5)
    ⟨true, [some (newWavSound "a" 5)], []⟩ "a" 0 rfl (by decide)
  exact ⟨h.1, h.2 (by decide)⟩

/-- C8: `loadFromMemory` keys every sound by the hash of the fixed string
"memory-mapped-sample", regardless of the buffer passed: while a sound with
that sentinel hash is in the registry, every further `loadFromMemory` call
(any buffer, any length) returns `fileAlreadyLoaded` with that same hash
and leaves the state untouched; when it is absent and the decode succeeds,
exactly one entry with the sentinel hash is appended — so at most one
memory-loaded sound can exist at a time. -/
theorem loadFromMemory_sentinel (hashFn : String → Nat) (st : PlayerState)
    (buffer : List Rat) (length : Nat) (decodeResult : Nat)
    (hinit : st.mInited = true) :
    (containsHash st.sounds (hashFn "memory-mapped-sample" % 4294967296) = true →
       loadFromMemory hashFn st buffer length decodeResult =
         (PlayerErrors.fileAlreadyLoaded, st,
          hashFn "memory-mapped-sample" % 4294967296))
    ∧ (containsHash st.sounds (hashFn "memory-mapped-sample" % 4294967296) = false →
       decodeResult = 0 →
       (loadFromMemory hashFn st buffer length decodeResult).2.1.sounds =
         st.sounds ++ [some (newWavSound "memory-mapped-sample"
           (hashFn "memory-mapped-sample" % 4294967296))]
       ∧ countHash (loadFromMemory hashFn st buffer length decodeResult).2.1.sounds
           (hashFn "memory-mapped-sample" % 4294967296) = 1) := by
  constructor
  · intro hpres
    simp [loadFromMemory, hinit, hpres]
  · intro habs hdec
    have hsounds : (loadFromMemory hashFn st buffer length decodeResult).2.1.sounds =
        st.sounds ++ [some (newWavSound "memory-mapped-sample"
          (hashFn "memory-mapped-sample" % 4294967296))] := by
      simp [loadFromMemory, hinit, habs, hdec]
    refine ⟨hsounds, ?_⟩
    rw [hsounds, countHash_append, countHash_eq_zero _ _ habs]
    simp [countHash, List.countP_cons, slotHasHash, newWavSound]

theorem loadFromMemory_sentinel_witness :
    loadFromMemory (fun _ => 9) ⟨true, [some (newWavSound "memory-mapped-sample" 9)], []⟩
        [0, 1] 2 0 =
      (PlayerErrors.fileAlreadyLoaded,
       (⟨true, [some (newWavSound "memory-mapped-sample" 9)], []⟩ : PlayerState), 9)
    ∧ ((loadFromMemory (fun _ => 9) ⟨true, [], []⟩ [3, 4] 2 0).2.1.sounds =
         [] ++ [some (newWavSound "memory-mapped-sample" 9)]
       ∧ countHash (loadFromMemory (fun _ => 9) ⟨true, [], []⟩ [3, 4] 2 0).2.1.sounds 9 = 1) :=
  ⟨(loadFromMemory_sentinel (fun _ => 9)
      ⟨true, [some (newWavSound "memory-mapped-sample" 9)], []⟩ [0, 1] 2 0 rfl).1 (by decide),
   (loadFromMemory_sentinel (fun _ => 9) ⟨true, [], []⟩ [3, 4] 2 0 rfl).2 (by decide) rfl⟩

/-- C3: when a load gets past the duplicate-hash check but the engine-side
decode fails (nonzero result), both `loadFile` and `loadFromMemory` return
the engine's error translated by the enum cast, and the registry keeps the
entry of the failed sound plus an appended empty placeholder slot — the
state is not rolled back. -/
theorem load_failure_appends_placeholder (hashFn : String → Nat)
    (st : PlayerState) (path : String) (buffer : List Rat) (length : Nat)
    (decodeResult : Nat)
    (hinit : st.mInited = true) (hd : decodeResult ≠ 0) :
    (containsHash st.sounds (hashFn path % 4294967296) = false →
       (loadFile hashFn st path decodeResult).1 = resultToPlayerError decodeResult
       ∧ (loadFile hashFn st path decodeResult).2.1.sounds =
           st.sounds ++ [some (newWavSound path (hashFn path % 4294967296)), none])
    ∧ (containsHash st.sounds (hashFn "memory-mapped-sample" % 4294967296) = false →
       (loadFromMemory hashFn st buffer length decodeResult).1 =
         resultToPlayerError decodeResult
       ∧ (loadFromMemory hashFn st buffer length decodeResult).2.1.sounds =
           st.sounds ++ [some (newWavSound "memory-mapped-sample"
             (hashFn "memory-mapped-sample" % 4294967296)), none]) := by
  constructor
  · intro habs
    constructor
    · simp [loadFile, hinit, habs, hd]
    · simp [loadFile, hinit, habs, hd]
  · intro habs
    constructor
    · simp [loadFromMemory, hinit, habs, hd]
    · simp [loadFromMemory, hinit, habs, hd]

theorem load_failure_appends_placeholder_witness :
    ((loadFile (fun _ => 5) ⟨true, [], []⟩ "a" 3).1 = resultToPlayerError 3
     ∧ (loadFile (fun _ => 5) ⟨true, [], []⟩ "a" 3).2.1.sounds =
         [] ++ [some (newWavSound "a" 5), none])
    ∧ ((loadFromMemory (fun _ => 5) ⟨true, [], []⟩ [1] 1 3).1 = resultToPlayerError 3
     ∧ (loadFromMemory (fun _ => 5) ⟨true, [], []⟩ [1] 1 3).2.1.sounds =
         [] ++ [some (newWavSound "memory-mapped-sample" 5), none]) :=
  ⟨(load_failure_appends_placeholder (fun _ => 5) ⟨true, [], []⟩ "a" [1] 1 3
      rfl (by decide)).1 (by decide),
   (load_failure_appends_placeholder (fun _ => 5) ⟨true, [], []⟩ "a" [1] 1 3
      rfl (by decide)).2 (by decide)⟩

/-- C7: each of the five waveform-parameter setters is a no-op (no state
change, no error — the functions return nothing) when the hash is absent
from the registry or the first sound found with that hash is not of the
synthesized kind; when that sound is synthesized, the setter mutates
exactly its generator parameter in the registry. -/
theorem waveform_setters_spec (st : PlayerState) (h : Nat)
    (scaleV detuneV freqV : Rat) (waveV : Int) (swV : Bool) :
    (containsHash st.sounds h = false →
       setWaveformScale st h scaleV = st
       ∧ setWaveformDetune st h detuneV = st
       ∧ setWaveform st h waveV = st
       ∧ setWaveformFreq st h freqV = st
       ∧ setWaveformSuperwave st h swV = st)
    ∧ (∀ i s, findIndexByHash st.sounds h = some i → st.sounds[i]? = some (some s) →
       s.soundType = SoundType.wav →
       setWaveformScale st h scaleV = st
       ∧ setWaveformDetune st h detuneV = st
       ∧ setWaveform st h waveV = st
       ∧ setWaveformFreq st h freqV = st
       ∧ setWaveformSuperwave st h swV = st)
    ∧ (∀ i s, findIndexByHash st.sounds h = some i → st.sounds[i]? = some (some s) →
       s.soundType = SoundType.synth →
       (setWaveformScale st h scaleV).sounds =
         st.sounds.set i (some { s with scale := scaleV })
       ∧ (setWaveformDetune st h detuneV).sounds =
         st.sounds.set i (some { s with detune := detuneV })
       ∧ (setWaveform st h waveV).sounds =
         st.sounds.set i (some { s with waveform := waveV })
       ∧ (setWaveformFreq st h freqV).sounds =
         st.sounds.set i (some { s with freq := freqV })
       ∧ (setWaveformSuperwave st h swV).sounds =
         st.sounds.set i (some { s with superwave := swV })) := by
  refine ⟨fun hc => ?_, fun i s hf hg hty => ?_, fun i s hf hg hty => ?_⟩
  · have hn := findIndexByHash_eq_none st.sounds h hc
    exact ⟨by simp [setWaveformScale, hn], by simp [setWaveformDetune, hn],
           by simp [setWaveform, hn], by simp [setWaveformFreq, hn],
           by simp [setWaveformSuperwave, hn]⟩
  · have hne : s.soundType ≠ SoundType.synth := by rw [hty]; decide
    exact ⟨by simp [setWaveformScale, hf, hg, hne],
           by simp [setWaveformDetune, hf, hg, hne],
           by simp [setWaveform, hf, hg, hne],
           by simp [setWaveformFreq, hf, hg, hne],
           by simp [setWaveformSuperwave, hf, hg, hne]⟩
  · exact ⟨by simp [setWaveformScale, hf, hg, hty],
           by simp [setWaveformDetune, hf, hg, hty],
           by simp [setWaveform, hf, hg, hty],
           by simp [setWaveformFreq, hf, hg, hty],
           by simp [setWaveformSuperwave, hf, hg, hty]⟩

theorem waveform_setters_spec_witness :
    setWaveformScale ⟨true, [], []⟩ 3 2 = (⟨true, [], []⟩ : PlayerState)
    ∧ setWaveformScale ⟨true, [some (newWavSound "a" 3)], []⟩ 3 2 =
        (⟨true, [some (newWavSound "a" 3)], []⟩ : PlayerState)
    ∧ (setWaveformScale
         ⟨true, [some ⟨"", 3, SoundType.synth, [], 1, 0, 0, 440, false⟩], []⟩ 3 2).sounds =
        [some (⟨"", 3, SoundType.synth, [], 1, 0, 0, 440, false⟩ : ActiveSound)].set 0
          (some ⟨"", 3, SoundType.synth, [], 2, 0, 0, 440, false⟩) :=
  ⟨((waveform_setters_spec ⟨true, [], []⟩ 3 2 0 0 0 false).1 (by decide)).1,
   ((waveform_setters_spec ⟨true, [some (newWavSound "a" 3)], []⟩ 3 2 0 0 0 false).2.1
      0 (newWavSound "a" 3) rfl rfl rfl).1,
   ((waveform_setters_spec
      ⟨true, [some ⟨"", 3, SoundType.synth, [], 1, 0, 0, 440, false⟩], []⟩ 3 2 0 0 0 false).2.2
      0 ⟨"", 3, SoundType.synth, [], 1, 0, 0, 440, false⟩ rfl rfl rfl).1⟩

/-- C9: `startCapture` and `stopCapture` on an uninitialized capture return
`capture_not_inited` and leave the state (including the device call log)
untouched, so no call reaches the device layer; `init` on an
already-initialized capture returns an error without touching the device;
after a successful `init`, `isInited` is true; after `stopCapture` or
`dispose`, `isInited` is false. -/
theorem capture_lifecycle {A : Type} (st : CaptureState A)
    (bufferFromDart : List A) (deviceInitResult startResult : Bool) :
    (st.mInited = false →
       Capture.startCapture st startResult = (CaptureErrors.capture_not_inited, st)
       ∧ Capture.stopCapture st = (CaptureErrors.capture_not_inited, st))
    ∧ (st.mInited = true →
       Capture.init st bufferFromDart deviceInitResult =
         (CaptureErrors.capture_init_failed, st))
    ∧ (st.mInited = false →
       (Capture.init st bufferFromDart true).1 = CaptureErrors.capture_noError
       ∧ Capture.isInited (Capture.init st bufferFromDart true).2 = true)
    ∧ Capture.isInited (Capture.stopCapture st).2 = false
    ∧ Capture.isInited (Capture.dispose st) = false := by
  refine ⟨fun hf => ?_, fun ht => ?_, fun hf => ?_, ?_, ?_⟩
  · exact ⟨by simp [Capture.startCapture, hf], by simp [Capture.stopCapture, hf]⟩
  · simp [Capture.init, ht]
  · exact ⟨by simp [Capture.init, hf], by simp [Capture.init, Capture.isInited, hf]⟩
  · cases hm : st.mInited
    · simp [Capture.stopCapture, hm, Capture.isInited]
    · simp [Capture.stopCapture, hm, Capture.isInited]
  · simp [Capture.dispose, Capture.isInited]

theorem capture_lifecycle_witness :
    Capture.startCapture (⟨false, 0, [], [], []⟩ : CaptureState Int) true =
      (CaptureErrors.capture_not_inited, ⟨false, 0, [], [], []⟩)
    ∧ Capture.init (⟨true, 0, [], [], []⟩ : CaptureState Int) [] true =
      (CaptureErrors.capture_init_failed, ⟨true, 0, [], [], []⟩)
    ∧ Capture.isInited (Capture.init (⟨false, 0, [], [], []⟩ : CaptureState Int) [] true).2 = true
    ∧ Capture.isInited (Capture.stopCapture (⟨true, 0, [], [], []⟩ : CaptureState Int)).2 = false :=
  ⟨((capture_lifecycle ⟨false, 0, [], [], []⟩ [] true true).1 rfl).1,
   (capture_lifecycle ⟨true, 0, [], [], []⟩ [] true true).2.1 rfl,
   ((capture_lifecycle ⟨false, 0, [], [], []⟩ [] true true).2.2.1 rfl).2,
   (capture_lifecycle (⟨true, 0, [], [], []⟩ : CaptureState Int) [] true true).2.2.2.1⟩

theorem findByHandle_some (l : List (Option ActiveSound)) (h : Nat) (i : Nat)
    (hf : findByHandle l h = some i) :
    ∃ s, l[i]? = some (some s) ∧ s.handles.contains h = true := by
  induction l generalizing i with
  | nil => simp [findByHandle] at hf
  | cons o rest ih =>
      unfold findByHandle at hf
      by_cases hc : slotHasHandle o h = true
      · rw [if_pos hc] at hf
        cases hf
        cases o with
        | none => simp [slotHasHandle] at hc
        | some s => exact ⟨s, by simp, hc⟩
      · rw [if_neg hc] at hf
        rcases Option.map_eq_some'.mp hf with ⟨j, hj, hij⟩
        rcases ih j hj with ⟨s, hget, hcont⟩
        subst hij
        exact ⟨s, by simpa using hget, hcont⟩

theorem length_filter_ne_add_count (l : List Nat) (h : Nat) :
    (l.filter (fun x => x ≠ h)).length + l.count h = l.length := by
  induction l with
  | nil => rfl
  | cons a t ih =>
      by_cases ha : a = h
      · have hfc : List.filter (fun x => decide (x ≠ h)) (a :: t) =
            List.filter (fun x => decide (x ≠ h)) t := by
          simp [List.filter_cons, ha]
        have hcc : List.count h (a :: t) = List.count h t + 1 := by
          simp [List.count_cons, ha]
        rw [hfc, hcc, List.length_cons]
        omega
      · have hfc : List.filter (fun x => decide (x ≠ h)) (a :: t) =
            a :: List.filter (fun x => decide (x ≠ h)) t := by
          simp [List.filter_cons, ha]
        have hcc : List.count h (a :: t) = List.count h t := by
          simp [List.count_cons, ha]
        rw [hfc, hcc, List.length_cons, List.length_cons]
        omega

theorem eraseHandleCpp_eq_filter (l : List Nat) (h : Nat)
    (hmem : l.contains h = true) (hcount : l.count h ≤ 1) :
    eraseHandleCpp l h = l.filter (fun x => x ≠ h) := by
  have hpos : 1 ≤ l.count h := by
    have : h ∈ l := by simpa using hmem
    exact List.one_le_count_iff.mpr this
  have hone : l.count h = 1 := le_antisymm hcount hpos
  have hlen : (l.filter (fun x => x ≠ h)).length + 1 = l.length := by
    have := length_filter_ne_add_count l h
    omega
  simp only [eraseHandleCpp]
  rw [hlen, List.drop_length, List.append_nil]

/-- C5: if a handle is tracked in some sound's live-handle list, `stop`
removes it from that owning sound's list (all other registry slots are
unchanged) and delegates the stop to the engine; if it is tracked in no
sound's list, `stop` is a no-op leaving the whole state unchanged.  The
hypothesis that no handle list holds the same handle twice reflects that
the engine issues distinct handles; with a duplicated handle the
single-element `erase(remove_if(...))` idiom of the source would leave
residues. -/
theorem stop_spec (st : PlayerState) (h : Nat)
    (hwf : ∀ (i : Nat) (s : ActiveSound),
       st.sounds[i]? = some (some s) → s.handles.count h ≤ 1) :
    ((∀ o ∈ st.sounds, slotHasHandle o h = false) → stop st h = st)
    ∧ (∀ i, findByHandle st.sounds h = some i →
       ∃ s : ActiveSound, st.sounds[i]? = some (some s)
         ∧ s.handles.contains h = true
         ∧ (stop st h).sounds =
             st.sounds.set i (some { s with handles := s.handles.filter (fun x => x ≠ h) })
         ∧ (({ s with handles := s.handles.filter (fun x => x ≠ h) } : ActiveSound).handles.contains h
              = false)
         ∧ (∀ j, j ≠ i → (stop st h).sounds[j]? = st.sounds[j]?)
         ∧ (stop st h).engineOps = st.engineOps ++ [EngineOp.stopOp h]) := by
  constructor
  · intro hall
    unfold stop
    rw [findByHandle_eq_none st.sounds h hall]
  · intro i hf
    rcases findByHandle_some st.sounds h i hf with ⟨s, hget, hcont⟩
    have hcnt := hwf i s hget
    have herase := eraseHandleCpp_eq_filter s.handles h hcont hcnt
    have hstop : stop st h =
        { st with
          engineOps := st.engineOps ++ [EngineOp.stopOp h]
          sounds := st.sounds.set i
            (some { s with handles := eraseHandleCpp s.handles h }) } := by
      simp [stop, hf, hget]
    refine ⟨s, hget, hcont, ?_, ?_, ?_, ?_⟩
    · rw [hstop, herase]
    · simp
    · intro j hj
      rw [hstop]
      exact List.getElem?_set_ne (Ne.symm hj)
    · rw [hstop]

theorem stop_spec_witness :
    stop ⟨true, [some ⟨"a", 1, SoundType.wav, [9], 0, 0, 0, 0, false⟩], []⟩ 7 =
      (⟨true, [some ⟨"a", 1, SoundType.wav, [9], 0, 0, 0, 0, false⟩], []⟩ : PlayerState)
    ∧ (stop ⟨true, [some ⟨"a", 1, SoundType.wav, [7, 8], 0, 0, 0, 0, false⟩], []⟩ 7).sounds =
        [some (⟨"a", 1, SoundType.wav, [7, 8], 0, 0, 0, 0, false⟩ : ActiveSound)].set 0
          (some ⟨"a", 1, SoundType.wav, [8], 0, 0, 0, 0, false⟩) := by
  constructor
  · exact (stop_spec ⟨true, [some ⟨"a", 1, SoundType.wav, [9], 0, 0, 0, 0, false⟩], []⟩ 7
      (by
        intro i s hgs
        rcases i with _ | i
        · simp at hgs
          cases hgs
          decide
        · simp at hgs)).1 (by decide)
  · obtain ⟨s, hget, hcont, hsounds, hnc, hother, hops⟩ :=
      (stop_spec ⟨true, [some ⟨"a", 1, SoundType.wav, [7, 8], 0, 0, 0, 0, false⟩], []⟩ 7
        (by
          intro i s hgs
          rcases i with _ | i
          · simp at hgs
            cases hgs
            decide
          · simp at hgs)).2 0 rfl
    simp at hget
    cases hget
    rw [hsounds]
    rfl

theorem flatten_length_of_frames {A : Type} (frames : List (List A))
    (hlen : ∀ f ∈ frames, f.length = 256) :
    frames.flatten.length = 256 * frames.length := by
  induction frames with
  | nil => simp
  | cons f rest ih =>
      rw [List.flatten_cons, List.length_append, hlen f (List.mem_cons_self f rest),
        ih (fun g hg => hlen g (List.mem_cons_of_mem _ hg)), List.length_cons]
      ring

theorem foldl_data_callback {A : Type} (frames : List (List A)) (st : CaptureState A)
    (hlen : ∀ f ∈ frames, f.length = 256)
    (hbound : 256 * st.currentFrame + 256 * frames.length ≤ st.bigBuffer.length) :
    (frames.foldl data_callback st).currentFrame = st.currentFrame + frames.length
    ∧ (frames.foldl data_callback st).bigBuffer =
        st.bigBuffer.take (256 * st.currentFrame) ++ frames.flatten
          ++ st.bigBuffer.drop (256 * st.currentFrame + 256 * frames.length) := by
  induction frames generalizing st with
  | nil =>
      refine ⟨by simp, ?_⟩
      simp only [List.foldl_nil, List.flatten_nil, List.append_nil, List.length_nil,
        Nat.mul_zero, Nat.add_zero]
      exact (List.take_append_drop _ _).symm
  | cons f rest ih =>
      have hf256 : f.length = 256 := hlen f (List.mem_cons_self f rest)
      rw [List.length_cons] at hbound
      have h1 : 256 * st.currentFrame ≤ st.bigBuffer.length := by
        have : 0 ≤ 256 * rest.length := Nat.zero_le _
        omega
      have hb1 : (data_callback st f).bigBuffer =
          st.bigBuffer.take (256 * st.currentFrame) ++ f
            ++ st.bigBuffer.drop (256 * st.currentFrame + 256) := by
        simp [data_callback, captureBufferSize, List.take_of_length_le (le_of_eq hf256)]
      have hcf1 : (data_callback st f).currentFrame = st.currentFrame + 1 := rfl
      have hPFlen : (st.bigBuffer.take (256 * st.currentFrame) ++ f).length =
          256 * st.currentFrame + 256 := by
        rw [List.length_append, List.length_take, hf256, Nat.min_eq_left h1]
      have hlenB : (data_callback st f).bigBuffer.length = st.bigBuffer.length := by
        rw [hb1, List.length_append, hPFlen, List.length_drop]
        omega
      have hrest : ∀ g ∈ rest, g.length = 256 :=
        fun g hg => hlen g (List.mem_cons_of_mem _ hg)
      have hbound1 : 256 * (data_callback st f).currentFrame + 256 * rest.length ≤
          (data_callback st f).bigBuffer.length := by
        rw [hcf1, hlenB]
        have : 256 * (st.currentFrame + 1) = 256 * st.currentFrame + 256 := by ring
        omega
      obtain ⟨ihc, ihb⟩ := ih (data_callback st f) hrest hbound1
      have htake : (data_callback st f).bigBuffer.take (256 * st.currentFrame + 256) =
          st.bigBuffer.take (256 * st.currentFrame) ++ f := by
        rw [hb1, ← hPFlen, List.take_left]
      have hdrop : ∀ m : Nat,
          (data_callback st f).bigBuffer.drop (256 * st.currentFrame + 256 + m) =
            st.bigBuffer.drop (256 * st.currentFrame + 256 + m) := by
        intro m
        rw [hb1, List.drop_append_eq_append_drop, hPFlen,
          List.drop_eq_nil_of_le (by rw [hPFlen]; omega), List.nil_append, List.drop_drop,
          Nat.add_sub_cancel' (Nat.le_add_right _ m)]
      constructor
      · rw [List.foldl_cons, ihc, hcf1, List.length_cons]
        omega
      · rw [List.foldl_cons, ihb, hcf1]
        have hmul : 256 * (st.currentFrame + 1) = 256 * st.currentFrame + 256 := by ring
        rw [hmul, htake, hdrop (256 * rest.length), List.flatten_cons, List.length_cons]
        have hidx : 256 * st.currentFrame + 256 + 256 * rest.length =
            256 * st.currentFrame + 256 * (rest.length + 1) := by ring
        rw [hidx]
        simp only [List.append_assoc]

/-- C4: starting from frame counter 0, after delivering N frames of 256
samples each through `data_callback`, the first N*256 samples of the big
buffer are exactly the concatenation of the N frames in delivery order
(valid while N*256 does not exceed the buffer's length); and every single
invocation overwrites the latest-frame buffer with the delivered frame and
increments the frame counter by exactly one. -/
theorem capture_accumulates {A : Type} (frames : List (List A)) (st : CaptureState A)
    (g : List A) (s2 : CaptureState A)
    (h0 : st.currentFrame = 0)
    (hlen : ∀ f ∈ frames, f.length = 256)
    (hbound : 256 * frames.length ≤ st.bigBuffer.length)
    (hg : g.length = 256) :
    (frames.foldl data_callback st).bigBuffer.take (256 * frames.length) = frames.flatten
    ∧ (frames.foldl data_callback st).currentFrame = frames.length
    ∧ (data_callback s2 g).capturedBuffer = g
    ∧ (data_callback s2 g).currentFrame = s2.currentFrame + 1 := by
  obtain ⟨hc, hb⟩ := foldl_data_callback frames st hlen (by rw [h0]; simpa using hbound)
  refine ⟨?_, by rw [hc, h0, Nat.zero_add], ?_, rfl⟩
  · rw [hb, h0]
    simp only [Nat.mul_zero, List.take_zero, List.nil_append, Nat.zero_add]
    rw [← flatten_length_of_frames frames hlen, List.take_left]
  · simp [data_callback, captureBufferSize, List.take_of_length_le (le_of_eq hg)]

theorem capture_accumulates_witness :
    ([List.replicate 256 (3 : Int)].foldl data_callback
        ⟨false, 0, [], List.replicate 256 (0 : Int), []⟩).bigBuffer.take (256 * 1) =
      [List.replicate 256 (3 : Int)].flatten
    ∧ ([List.replicate 256 (3 : Int)].foldl data_callback
        ⟨false, 0, [], List.replicate 256 (0 : Int), []⟩).currentFrame = 1
    ∧ (data_callback (⟨false, 0, [], [], []⟩ : CaptureState Int)
        (List.replicate 256 (5 : Int))).capturedBuffer = List.replicate 256 (5 : Int)
    ∧ (data_callback (⟨false, 0, [], [], []⟩ : CaptureState Int)
        (List.replicate 256 (5 : Int))).currentFrame = 0 + 1 :=
  capture_accumulates [List.replicate 256 (3 : Int)]
    ⟨false, 0, [], List.replicate 256 (0 : Int), []⟩
    (List.replicate 256 (5 : Int)) ⟨false, 0, [], [], []⟩ rfl
    (by
      intro f hf
      rw [List.mem_singleton] at hf
      rw [hf, List.length_replicate])
    (by
      show 256 * 1 ≤ (List.replicate 256 (0 : Int)).length
      rw [List.length_replicate, Nat.mul_one])
    (by rw [List.length_replicate])
